import Mathlib

/-!
A shallow embedding of the scoring and recommendation engine of
`src/SEO/models.py` (class `SEOAnalysis`), together with theorems settling
the specification claims.

Modelling conventions:
* Python floats are modelled as `ℚ` (decimal literals such as `0.7` are exact
  in `ℚ`, which matches the source's decimal constants; `round` is modelled as
  round-half-to-even on the exact rational value).
* Python dates and datetimes are modelled as whole-day numbers (`Int`); the
  clock values `date.today()` and `datetime.now()` are passed explicitly in a
  `Clock` record, so the time-dependence of the source is explicit.
* Django `JSONField` lists may hold non-string entries at runtime; `h2_texts`
  is therefore a list of `PyVal`, and the two methods that call `.lower()` on
  its entries are `Except`-valued: a non-string entry raises (AttributeError
  in Python), which `save` catches.  This is the one genuine failure channel
  of the analysis pipeline.
* Recommendation messages are interpolated format strings in the source; they
  are modelled as an inductive `Msg` whose constructors carry exactly the
  interpolated values, one constructor per distinct source format string.
* Fields of the Django model that the engine never reads
  (`semantic_keywords`, `render_blocking_resources`, `faq_schema_present`,
  `lazy_loading_images`, `hreflang_implemented`, `image_compression_score`,
  `security_headers`, `rich_snippet_opportunities`, timestamps, `url`) are
  omitted from the state.
-/

set_option allowUnsafeReducibility true

attribute [local semireducible] Rat.add Rat.mul Rat.sub Rat.inv Rat.ofScientific

namespace SEOModel

/-- A JSON value stored in the `h2_texts` JSONField: a string, or some
non-string value (modelled by an integer payload), on which Python's
`.lower()` raises `AttributeError`. -/
inductive PyVal where
  | str (s : String)
  | int (n : Int)
deriving Repr, DecidableEq

/-- Python's `str.lower()`: lower-case every character.  (Equivalent to
`String.toLower`, but defined over the character list so that it reduces
definitionally.) -/
def pyStrLower (s : String) : String :=
  ⟨s.data.map Char.toLower⟩

/-- Python's `str.strip()`: remove leading and trailing whitespace.
(Equivalent to `String.trim`, but defined over the character list so that it
reduces definitionally.) -/
def pyTrim (s : String) : String :=
  ⟨((s.data.dropWhile Char.isWhitespace).reverse.dropWhile Char.isWhitespace).reverse⟩

/-- `.lower()` on a JSON list entry: succeeds on strings, raises otherwise. -/
def pyLower : PyVal → Except Unit String
  | .str s => .ok (pyStrLower s)
  | .int _ => .error ()

/-- One entry of the `paragraphs` JSONField: a dict with keys `text` and
`length` (read via `paragraph.get('text', '')` / `paragraph.get('length', 0)`). -/
structure Para where
  text : String := ""
  plen : Nat := 0
deriving Repr, DecidableEq

/-- The explicit clock: `date.today()` and `datetime.now()` as day numbers.
`calculate_seo_health` reads `date.today()` and `calculate_eeat_score` reads
`datetime.now()`; passing them explicitly makes the source's time dependence
visible in the embedding. -/
structure Clock where
  today : Int := 0
  now : Int := 0
deriving Repr, DecidableEq

/-- Recommendation priorities.  The source uses the strings
`'critical' | 'high' | 'medium' | 'low'`; no other priority string is ever
produced. -/
inductive Priority where
  | critical
  | high
  | medium
  | low
deriving Repr, DecidableEq

/-- `priority_order = {'critical': 0, 'high': 1, 'medium': 2, 'low': 3}`
(from `generate_recommendations`; the `.get(x, 4)` default is unreachable
because every generated recommendation carries one of the four values). -/
def priorityOrder : Priority → Nat
  | .critical => 0
  | .high => 1
  | .medium => 2
  | .low => 3

/-- The `type` field of a recommendation dict. -/
inductive RType where
  | title
  | meta_description
  | security
  | headers
  | paragraph_length
  | keyword_distribution
  | schema
  | content_quality
  | keyword
  | technical
  | performance
  | error
deriving Repr, DecidableEq

/-- Recommendation messages.  Each constructor corresponds to one format
string of the source, carrying exactly the values interpolated into it. -/
inductive Msg where
  | missingTitle
  | titleTooShort (n : Nat)
  | titleTooLong (n : Nat)
  | missingMetaDescription
  | metaDescriptionShort (n : Nat)
  | notHttps
  | missingH1
  | multipleH1 (n : Nat)
  | noH2
  | h1h2Identical (i : Nat) (t : String)
  | duplicateH2
  | paragraphVeryLong (i : Nat) (l : Nat)
  | manyLongParagraphs (long tot : Nat)
  | keywordSparse (k : String) (inP tot : Nat)
  | keywordStuffing (k : String) (inP tot : Nat)
  | noSchemaMarkup
  | schemaTypeUnknown
  | schemaHasErrors (n : Nat)
  | schemaSuggest (ts : List String)
  | contentTooThin (wc : Nat)
  | contentComprehensive (wc : Nat)
  | duplicateContentMsg
  | veryHardToRead (sc : ℚ)
  | hardToRead (sc : ℚ)
  | flaggedThin
  | keywordNotFound (k : String)
  | keywordCountLow (k : String) (cnt target : Nat)
  | densityVeryLow (d : ℚ)
  | densityTooHigh (d : ℚ)
  | addCanonical
  | notMobileFriendly
  | lcpSlow (v : ℚ)
  | clsHigh (v : ℚ)
  | analysisError
deriving Repr, DecidableEq

/-- A recommendation dict `{'type': ..., 'priority': ..., 'message': ...}`. -/
structure Recommend where
  rtype : RType
  priority : Priority
  msg : Msg
deriving Repr, DecidableEq

/-- The `SEOAnalysis` model state: every field the engine reads or writes.
Defaults mirror the Django field defaults. -/
structure SA where
  title : Option String := none
  title_length : Nat := 0
  meta_description : Option String := none
  meta_description_length : Nat := 0
  h1_count : Nat := 0
  h2_count : Nat := 0
  h3_count : Nat := 0
  h1_text : Option String := none
  h2_texts : List PyVal := []
  word_count : Nat := 0
  keyword : Option String := none
  keyword_count : Nat := 0
  keyword_density : ℚ := 0
  recommended_keyword_count : Nat := 0
  paragraphs : List Para := []
  images_count : Nat := 0
  missing_alt_images_count : Nat := 0
  has_canonical : Bool := false
  has_schema_markup : Bool := false
  schema_types : List String := []
  schema_errors : List String := []
  breadcrumb_schema_present : Bool := false
  internal_links_count : Nat := 0
  external_links_count : Nat := 0
  largest_contentful_paint : Option ℚ := none
  first_input_delay : Option ℚ := none
  cumulative_layout_shift : Option ℚ := none
  mobile_friendly : Bool := false
  https : Bool := false
  content_readability_score : Option ℚ := none
  duplicate_content : Bool := false
  thin_content : Bool := false
  content_freshness : Option Int := none
  robots_txt_status : Bool := false
  sitemap_status : Bool := false
  page_load_time : Option ℚ := none
  author_credentials : Bool := false
  author_bylines : Bool := false
  citation_sources : Nat := 0
  last_updated : Option Int := none
  contact_info_present : Bool := false
  seo_health_percentage : Nat := 0
  recommendations : List Recommend := []
deriving Repr, DecidableEq

/-- Python truthiness of an optional string: `None` and `''` are falsy. -/
def truthyStr : Option String → Bool
  | none => false
  | some s => !s.isEmpty

/-- Python truthiness of an optional float: `None` and `0.0` are falsy. -/
def truthyQ : Option ℚ → Bool
  | none => false
  | some q => q != 0

/-- Python's `round` to an integer: round half to even on the exact value. -/
def pyRound (q : ℚ) : Int :=
  let f := ⌊q⌋
  if q - f < 1/2 then f
  else if q - f > 1/2 then f + 1
  else if f % 2 = 0 then f else f + 1

/-- Python's `round(x, 2)`: round half to even at two decimal places. -/
def pyRound2 (q : ℚ) : ℚ :=
  (pyRound (q * 100) : ℚ) / 100

/-- Python's `int()` truncation toward zero. -/
def pyInt (q : ℚ) : Int :=
  if 0 ≤ q then ⌊q⌋ else -⌊-q⌋

/-- The `SEO_WEIGHTS` class attribute, in source order.  The source comment
reads "Improved weight distribution (total = 100)". -/
def SEO_WEIGHTS : List (String × ℚ) :=
  [("title", 8),
   ("meta_description", 4),
   ("h1", 4),
   ("headers_structure", 4),
   ("headers_unique", 3),
   ("images", 4),
   ("canonical", 3),
   ("schema", 4),
   ("keywords", 12),
   ("keyword_distribution", 8),
   ("paragraph_length", 6),
   ("links", 3),
   ("content_length", 8),
   ("core_vitals", 15),
   ("eeat", 10),
   ("technical_seo", 6),
   ("content_freshness", 3),
   ("mobile_friendly", 2),
   ("https", 3)]

/-- `self.SEO_WEIGHTS[k]`. -/
def w (k : String) : ℚ :=
  ((SEO_WEIGHTS.lookup k).getD 0)

/-- `calculate_keyword_stats`: sets `keyword_density` and
`recommended_keyword_count` from `keyword`, `keyword_count`, `word_count`.
(The source guards both assignments with one early return; here the guard is
duplicated into each field, which assigns the same values.) -/
def calculate_keyword_stats (s : SA) : SA :=
  { s with
    keyword_density :=
      if truthyStr s.keyword = false ∨ s.word_count = 0 then 0
      else pyRound2 ((s.keyword_count : ℚ) / (s.word_count : ℚ) * 100),
    recommended_keyword_count :=
      if truthyStr s.keyword = false ∨ s.word_count = 0 then 0
      else if s.word_count ≤ 300 then 1
      else if s.word_count ≤ 800 then
        max 2 (pyRound ((s.word_count : ℚ) / 250)).toNat
      else
        max 3 (pyRound ((s.word_count : ℚ) / 300)).toNat }

/-- Substring containment, Python's `needle in haystack` on strings. -/
def strIn (needle hay : String) : Bool :=
  decide (needle.data <:+: hay.data)

/-- The `H1`-count issues of `analyze_headers_structure` (the `if/elif` on
`h1_count`). -/
def h1Issues (s : SA) : List Recommend :=
  if s.h1_count = 0 then
    [⟨.headers, .critical, .missingH1⟩]
  else if s.h1_count > 1 then
    [⟨.headers, .high, .multipleH1 s.h1_count⟩]
  else []

/-- The `H2`-structure issue of `analyze_headers_structure`. -/
def h2Issue (s : SA) : List Recommend :=
  if s.h2_count = 0 ∧ s.word_count > 300 then
    [⟨.headers, .medium, .noH2⟩]
  else []

/-- The H1/H2-identical loop of `analyze_headers_structure`: for each index
`i`, an issue when `h1_text.lower().strip() == h2_text.lower().strip()`.
Raises on the first non-string entry of `h2_texts` (see `pyLower`); the loop
runs only when `h1_text` is truthy and `h2_texts` non-empty. -/
def identIssuesE (s : SA) : Except Unit (List Recommend) :=
  if truthyStr s.h1_text = false ∨ s.h2_texts = [] then .ok []
  else
    (s.h2_texts.mapM pyLower).map (fun ls =>
      ls.enum.filterMap (fun p =>
        if pyTrim (pyStrLower (s.h1_text.getD "")) = pyTrim p.2 then
          some ⟨.headers, .high, .h1h2Identical (p.1 + 1) (s.h1_text.getD "")⟩
        else none))

/-- The duplicate-H2 check of `analyze_headers_structure`:
`len(h2_texts) != len(set(h2.lower() for h2 in h2_texts))`.  Raises on a
non-string entry; runs only when `h2_texts` is non-empty. -/
def dupIssueE (s : SA) : Except Unit (List Recommend) :=
  if s.h2_texts = [] then .ok []
  else
    (s.h2_texts.mapM pyLower).map (fun ls =>
      if ls.length ≠ ls.dedup.length then
        [⟨.headers, .medium, .duplicateH2⟩]
      else [])

/-- `analyze_headers_structure`. -/
def analyze_headers_structure (s : SA) : Except Unit (List Recommend) := do
  let ident ← identIssuesE s
  let dup ← dupIssueE s
  .ok (h1Issues s ++ h2Issue s ++ ident ++ dup)

/-- The number of paragraphs whose `length` exceeds 200 (`long_paragraphs`
in `analyze_paragraphs`). -/
def longParCount (s : SA) : Nat :=
  (s.paragraphs.filter (fun p => p.plen > 200)).length

/-- The number of paragraphs containing the keyword, case-insensitively
(`paragraphs_with_keyword` in `analyze_paragraphs`). -/
def kwParCount (s : SA) : Nat :=
  (s.paragraphs.filter
    (fun p => strIn (pyStrLower (s.keyword.getD "")) (pyStrLower p.text))).length

/-- `keyword_coverage = paragraphs_with_keyword / total_paragraphs`. -/
def kwCoverage (s : SA) : ℚ :=
  (kwParCount s : ℚ) / (s.paragraphs.length : ℚ)

/-- The per-paragraph very-long issues of `analyze_paragraphs`, in loop
order (an issue for each paragraph longer than 300 characters). -/
def veryLongIssues (s : SA) : List Recommend :=
  s.paragraphs.enum.filterMap (fun p =>
    if p.2.plen > 300 then
      some ⟨.paragraph_length, .high, .paragraphVeryLong (p.1 + 1) p.2.plen⟩
    else none)

/-- The aggregate long-paragraph issue of `analyze_paragraphs` (more than
50% of paragraphs longer than 200 characters). -/
def longParagraphIssue (s : SA) : List Recommend :=
  if (longParCount s : ℚ) > (s.paragraphs.length : ℚ) * 0.5 then
    [⟨.paragraph_length, .medium,
      .manyLongParagraphs (longParCount s) s.paragraphs.length⟩]
  else []

/-- The keyword-coverage issue of `analyze_paragraphs` (guarded by
`total_paragraphs > 0 and self.keyword`; the caller guarantees the
paragraph list is non-empty). -/
def keywordCoverageIssue (s : SA) : List Recommend :=
  if truthyStr s.keyword then
    if kwCoverage s < 0.2 then
      [⟨.keyword_distribution, .medium,
        .keywordSparse (s.keyword.getD "") (kwParCount s) s.paragraphs.length⟩]
    else if kwCoverage s > 0.7 then
      [⟨.keyword_distribution, .high,
        .keywordStuffing (s.keyword.getD "") (kwParCount s) s.paragraphs.length⟩]
    else []
  else []

/-- `analyze_paragraphs`: per-paragraph very-long issues (in loop order),
then the aggregate long-paragraph issue, then the keyword-coverage issue. -/
def analyze_paragraphs (s : SA) : List Recommend :=
  if s.paragraphs = [] then []
  else veryLongIssues s ++ longParagraphIssue s ++ keywordCoverageIssue s

/-- The content-based schema suggestions of `check_schema_markup`. -/
def suggestedTypes (s : SA) : List String :=
  (if s.word_count > 500 ∧ s.schema_types.contains "Article" = false then
    ["Article"]
  else []) ++
  (if s.breadcrumb_schema_present = false then ["BreadcrumbList"] else [])

/-- `check_schema_markup`.  Note the two early returns: with no schema markup
only the high issue is emitted, and with schema markup but empty
`schema_types` only the medium issue is emitted (the error check and the
suggestions are never reached). -/
def check_schema_markup (s : SA) : List Recommend :=
  if s.has_schema_markup = false then
    [⟨.schema, .high, .noSchemaMarkup⟩]
  else if s.schema_types = [] then
    [⟨.schema, .medium, .schemaTypeUnknown⟩]
  else
    (if s.schema_errors ≠ [] then
      [⟨.schema, .high, .schemaHasErrors s.schema_errors.length⟩]
    else []) ++
    (if suggestedTypes s ≠ [] then
      [⟨.schema, .low, .schemaSuggest (suggestedTypes s)⟩]
    else [])

/-- `calculate_core_web_vitals_score`: 0–100, absent metrics contribute 0
(the source tests `is not None`). -/
def calculate_core_web_vitals_score (s : SA) : Nat :=
  (match s.largest_contentful_paint with
   | none => 0
   | some v => if v ≤ 2500 then 35 else if v ≤ 4000 then 20 else 5) +
  (match s.first_input_delay with
   | none => 0
   | some v => if v ≤ 100 then 25 else if v ≤ 300 then 15 else 5) +
  (match s.cumulative_layout_shift with
   | none => 0
   | some v => if v ≤ 0.1 then 40 else if v ≤ 0.25 then 25 else 10)

/-- `calculate_eeat_score`: summed trust signals, clamped to 100.
`days_old = (datetime.now() - last_updated).days` is modelled as
`c.now - lu` with both as whole-day numbers. -/
def calculate_eeat_score (s : SA) (c : Clock) : Nat :=
  min 100
    ((if s.author_credentials then 25 else 0) +
     (if s.author_bylines then 20 else 0) +
     (if s.citation_sources > 0 then min 25 (s.citation_sources * 5) else 0) +
     (if s.contact_info_present then 15 else 0) +
     (match s.last_updated with
      | none => 0
      | some lu =>
        if c.now - lu ≤ 90 then 15
        else if c.now - lu ≤ 365 then 10
        else if c.now - lu ≤ 730 then 5
        else 0))

/-- `analyze_content_quality`: the plain-string issue list, as messages. -/
def analyze_content_quality (s : SA) : List Msg :=
  (if s.word_count < 300 then [.contentTooThin s.word_count]
   else if s.word_count < 500 then [.contentComprehensive s.word_count]
   else []) ++
  (if s.duplicate_content then [.duplicateContentMsg] else []) ++
  (match s.content_readability_score with
   | none => []
   | some r =>
     if r < 30 then [.veryHardToRead r]
     else if r < 50 then [.hardToRead r]
     else []) ++
  (if s.thin_content then [.flaggedThin] else [])

/-- The short-circuiting `any(h1_lower == h2.lower().strip() for h2 in ...)`
of `calculate_seo_health`: raises only if a non-string entry is reached
before a match. -/
def anyIdentical (h1l : String) : List PyVal → Except Unit Bool
  | [] => .ok false
  | v :: rest => do
    let l ← pyLower v
    if h1l = pyTrim l then .ok true else anyIdentical h1l rest

/-- The `headers_unique` flag of `calculate_seo_health`. -/
def headersUniqueE (s : SA) : Except Unit Bool :=
  if truthyStr s.h1_text = false ∨ s.h2_texts = [] then .ok true
  else
    (anyIdentical (pyTrim (pyStrLower (s.h1_text.getD ""))) s.h2_texts).map
      (fun b => !b)

/-- Title block of `calculate_seo_health` ("Title optimization (8%)"). -/
def titleScore (s : SA) : ℚ :=
  if truthyStr s.title then
    if 50 ≤ s.title_length ∧ s.title_length ≤ 60 then w "title"
    else if 30 ≤ s.title_length ∧ s.title_length ≤ 70 then w "title" * 0.7
    else if s.title_length > 0 then w "title" * 0.3
    else 0
  else 0

/-- Meta-description block of `calculate_seo_health`. -/
def metaScore (s : SA) : ℚ :=
  if truthyStr s.meta_description then
    if 150 ≤ s.meta_description_length ∧ s.meta_description_length ≤ 160 then
      w "meta_description"
    else if 120 ≤ s.meta_description_length ∧ s.meta_description_length ≤ 170 then
      w "meta_description" * 0.7
    else 0
  else 0

/-- H1/H2/H3 blocks of `calculate_seo_health`. -/
def headerCountScore (s : SA) : ℚ :=
  (if s.h1_count = 1 then w "h1" else 0) +
  (if s.h2_count ≥ 2 then w "headers_structure" * 0.7 else 0) +
  (if s.h3_count ≥ 1 then w "headers_structure" * 0.3 else 0)

/-- Images block of `calculate_seo_health` (note: `alt_ratio` can go negative
when `missing_alt_images_count > images_count`). -/
def imagesScore (s : SA) : ℚ :=
  if s.images_count > 0 then
    w "images" * (1 - (s.missing_alt_images_count : ℚ) / (s.images_count : ℚ))
  else 0

/-- Keywords block of `calculate_seo_health` (density score plus paragraph
coverage distribution score). -/
def keywordsScore (s : SA) : ℚ :=
  if truthyStr s.keyword ∧ s.keyword_count > 0 then
    (if 1.0 ≤ s.keyword_density ∧ s.keyword_density ≤ 2.5 then w "keywords"
     else if 0.5 ≤ s.keyword_density ∧ s.keyword_density ≤ 3.5 then w "keywords" * 0.7
     else if s.keyword_density > 0 then w "keywords" * 0.3
     else 0) +
    (if s.paragraphs ≠ [] then
      let k := s.keyword.getD ""
      let kwPars := (s.paragraphs.filter (fun p => strIn (pyStrLower k) (pyStrLower p.text))).length
      let coverage : ℚ := (kwPars : ℚ) / (s.paragraphs.length : ℚ)
      if 0.2 ≤ coverage ∧ coverage ≤ 0.7 then w "keyword_distribution"
      else if coverage > 0 then w "keyword_distribution" * 0.5
      else 0
    else 0)
  else 0

/-- Paragraph-length block of `calculate_seo_health`. -/
def paragraphScore (s : SA) : ℚ :=
  if s.paragraphs ≠ [] then
    let longCount := (s.paragraphs.filter (fun p => p.plen > 200)).length
    w "paragraph_length" * (1 - (longCount : ℚ) / (s.paragraphs.length : ℚ))
  else 0

/-- Content-length block of `calculate_seo_health`. -/
def contentLengthScore (s : SA) : ℚ :=
  if s.word_count ≥ 500 then w "content_length"
  else if s.word_count ≥ 300 then w "content_length" * 0.7
  else if s.word_count ≥ 150 then w "content_length" * 0.3
  else 0

/-- Technical-SEO booleans block of `calculate_seo_health`
(canonical, schema, https, mobile_friendly). -/
def technicalScore (s : SA) : ℚ :=
  (if s.has_canonical then w "canonical" else 0) +
  (if s.has_schema_markup then w "schema" else 0) +
  (if s.https then w "https" else 0) +
  (if s.mobile_friendly then w "mobile_friendly" else 0)

/-- Links block of `calculate_seo_health`. -/
def linksScore (s : SA) : ℚ :=
  if s.internal_links_count > 0 ∧ s.external_links_count > 0 then w "links"
  else if s.internal_links_count > 0 ∨ s.external_links_count > 0 then w "links" * 0.5
  else 0

/-- Weighted Core-Web-Vitals contribution. -/
def cwvWeighted (s : SA) : ℚ :=
  ((calculate_core_web_vitals_score s : ℚ) / 100) * w "core_vitals"

/-- Weighted E-E-A-T contribution. -/
def eeatWeighted (s : SA) (c : Clock) : ℚ :=
  ((calculate_eeat_score s c : ℚ) / 100) * w "eeat"

/-- Additional technical factors block of `calculate_seo_health`
(robots.txt, sitemap, truthy load time ≤ 3s). -/
def advancedTechScore (s : SA) : ℚ :=
  (((if s.robots_txt_status then 1 else 0) +
    (if s.sitemap_status then 1 else 0) +
    (match s.page_load_time with
     | none => 0
     | some t => if t ≠ 0 ∧ t ≤ 3.0 then (1 : ℚ) else 0)) / 3) * w "technical_seo"

/-- Content-freshness block of `calculate_seo_health`
(`days_old = (date.today() - content_freshness).days`). -/
def freshnessScore (s : SA) (c : Clock) : ℚ :=
  match s.content_freshness with
  | none => 0
  | some d =>
    if c.today - d ≤ 30 then w "content_freshness"
    else if c.today - d ≤ 180 then w "content_freshness" * 0.7
    else if c.today - d ≤ 365 then w "content_freshness" * 0.3
    else 0

/-- The raw (pre-clamp) score accumulated by `calculate_seo_health`: the
value of the local `score` variable just before
`self.seo_health_percentage = min(100, max(0, int(score)))`, with the
additions grouped in source order. -/
def seo_health_score (s : SA) (c : Clock) : Except Unit ℚ :=
  (headersUniqueE s).map (fun hu =>
    titleScore s + metaScore s + headerCountScore s +
    (if hu then w "headers_unique" else 0) + imagesScore s + keywordsScore s +
    paragraphScore s + contentLengthScore s + technicalScore s + linksScore s +
    cwvWeighted s + eeatWeighted s c + advancedTechScore s + freshnessScore s c)

/-- `calculate_seo_health`: sets
`seo_health_percentage = min(100, max(0, int(score)))`. -/
def calculate_seo_health (s : SA) (c : Clock) : Except Unit SA :=
  (seo_health_score s c).map (fun q =>
    { s with seo_health_percentage := (min 100 (max 0 (pyInt q))).toNat })

/-- The title recommendations of `generate_recommendations`. -/
def titleRecs (s : SA) : List Recommend :=
  if truthyStr s.title = false ∨ s.title_length = 0 then
    [⟨.title, .critical, .missingTitle⟩]
  else if s.title_length < 30 then
    [⟨.title, .high, .titleTooShort s.title_length⟩]
  else if s.title_length > 70 then
    [⟨.title, .high, .titleTooLong s.title_length⟩]
  else []

/-- The meta-description recommendations of `generate_recommendations`. -/
def metaRecs (s : SA) : List Recommend :=
  if truthyStr s.meta_description = false ∨ s.meta_description_length = 0 then
    [⟨.meta_description, .high, .missingMetaDescription⟩]
  else if s.meta_description_length < 120 then
    [⟨.meta_description, .medium, .metaDescriptionShort s.meta_description_length⟩]
  else []

/-- The security recommendation of `generate_recommendations`. -/
def httpsRecs (s : SA) : List Recommend :=
  if s.https = false then [⟨.security, .critical, .notHttps⟩] else []

/-- The content-quality recommendations: each issue string wrapped with
type `content_quality` and priority `high`. -/
def contentQualityRecs (s : SA) : List Recommend :=
  (analyze_content_quality s).map (fun m => ⟨.content_quality, .high, m⟩)

/-- The keyword recommendations of `generate_recommendations`.  Note: the
count checks form an `if/elif`, but the density checks are a separate `if`,
so a density recommendation can accompany a count one. -/
def keywordRecs (s : SA) : List Recommend :=
  if truthyStr s.keyword then
    (if s.keyword_count = 0 then
      [⟨.keyword, .critical, .keywordNotFound (s.keyword.getD "")⟩]
    else if s.keyword_count < s.recommended_keyword_count then
      [⟨.keyword, .medium,
        .keywordCountLow (s.keyword.getD "") s.keyword_count s.recommended_keyword_count⟩]
    else []) ++
    (if s.keyword_density < 0.5 then
      [⟨.keyword, .medium, .densityVeryLow s.keyword_density⟩]
    else if s.keyword_density > 3.0 then
      [⟨.keyword, .high, .densityTooHigh s.keyword_density⟩]
    else [])
  else []

/-- The technical recommendations of `generate_recommendations`. -/
def techRecs (s : SA) : List Recommend :=
  (if s.has_canonical = false then [⟨.technical, .medium, .addCanonical⟩] else []) ++
  (if s.mobile_friendly = false then [⟨.technical, .high, .notMobileFriendly⟩] else [])

/-- The Core-Web-Vitals recommendations of `generate_recommendations`
(truthiness guards: an LCP or CLS of exactly `0.0` is falsy). -/
def perfRecs (s : SA) : List Recommend :=
  (if truthyQ s.largest_contentful_paint = true ∧
      (s.largest_contentful_paint.getD 0) > 2500 then
    [⟨.performance, .high, .lcpSlow (s.largest_contentful_paint.getD 0)⟩]
  else []) ++
  (if truthyQ s.cumulative_layout_shift = true ∧
      (s.cumulative_layout_shift.getD 0) > 0.1 then
    [⟨.performance, .medium, .clsHigh (s.cumulative_layout_shift.getD 0)⟩]
  else [])

/-- The full recommendation list before sorting, in source append order. -/
def recsBase (s : SA) (hdrs : List Recommend) : List Recommend :=
  titleRecs s ++ metaRecs s ++ httpsRecs s ++ hdrs ++ analyze_paragraphs s ++
  check_schema_markup s ++ contentQualityRecs s ++ keywordRecs s ++
  techRecs s ++ perfRecs s

/-- The final `self.recommendations.sort(key=lambda x: priority_order.get(
x['priority'], 4))`: Python's `list.sort` is stable, and a stable sort by a
key ranging over finitely many values equals the concatenation of the
equal-key sublists in key order.  (No generated recommendation carries a
priority outside the four listed values, so the default bucket 4 is empty.) -/
def sortRecs (l : List Recommend) : List Recommend :=
  (l.filter (fun r => priorityOrder r.priority == 0)) ++
  (l.filter (fun r => priorityOrder r.priority == 1)) ++
  (l.filter (fun r => priorityOrder r.priority == 2)) ++
  (l.filter (fun r => priorityOrder r.priority == 3))

/-- `generate_recommendations`: returns the sorted recommendation list (in
the source this is assigned to `self.recommendations`). -/
def generate_recommendations (s : SA) : Except Unit (List Recommend) :=
  (analyze_headers_structure s).map (fun hdrs => sortRecs (recsBase s hdrs))

/-- `has_critical_errors`. -/
def has_critical_errors (s : SA) : Bool :=
  (!s.https) ||
  (!truthyStr s.title || s.title_length == 0) ||
  (s.h1_count == 0) ||
  (truthyStr s.keyword && s.keyword_count == 0) ||
  s.recommendations.any (fun r => decide (r.priority = Priority.critical))

/-- `get_seo_grade`. -/
def get_seo_grade (s : SA) : String :=
  if s.seo_health_percentage ≥ 90 then "A+"
  else if s.seo_health_percentage ≥ 80 then "A"
  else if s.seo_health_percentage ≥ 70 then "B"
  else if s.seo_health_percentage ≥ 60 then "C"
  else if s.seo_health_percentage ≥ 50 then "D"
  else "F"

/-- The grade of a given health score (the method applied to a state holding
that score). -/
def gradeAt (n : Nat) : String :=
  get_seo_grade { seo_health_percentage := n }

/-- The first step of `save`: recompute `title_length` and
`meta_description_length` (`len(x.strip()) if x else 0`). -/
def updateLengths (s : SA) : SA :=
  { s with
    title_length := if truthyStr s.title then (pyTrim (s.title.getD "")).length else 0,
    meta_description_length :=
      if truthyStr s.meta_description then
        (pyTrim (s.meta_description.getD "")).length
      else 0 }

/-- The body of `save`'s `try` block after the keyword stats: generate
recommendations, compute the health score, then set the thin-content flag.
Note that `thin_content` is assigned only *after* the recommendations were
generated. -/
def analysisPipeline (s2 : SA) (c : Clock) : Except Unit SA := do
  let recs ← generate_recommendations s2
  let s4 ← calculate_seo_health { s2 with recommendations := recs } c
  .ok { s4 with thin_content := decide (s2.word_count < 300) }

/-- The fallback recommendation of `save`'s `except` branch. -/
def errorRec : Recommend :=
  ⟨.error, .critical, .analysisError⟩

/-- `save` (minus the final `super().save()` database write): runs the
analysis pipeline; on an exception, forces `seo_health_percentage = 0` and
replaces the recommendations with the single critical error recommendation
(field updates made before the failure point persist). -/
def save (s : SA) (c : Clock) : SA :=
  match analysisPipeline (calculate_keyword_stats (updateLengths s)) c with
  | .ok s5 => s5
  | .error _ =>
    { calculate_keyword_stats (updateLengths s) with
      seo_health_percentage := 0,
      recommendations := [errorRec] }

instance {ε α : Type} [DecidableEq ε] [DecidableEq α] : DecidableEq (Except ε α)
  | .ok a, .ok b =>
    if h : a = b then .isTrue (by rw [h]) else .isFalse (by simp [h])
  | .ok _, .error _ => .isFalse (by simp)
  | .error _, .ok _ => .isFalse (by simp)
  | .error e, .error f =>
    if h : e = f then .isTrue (by rw [h]) else .isFalse (by simp [h])

/-- The keyword analyzer as worded in the spec (§4.1): if the keyword is
absent (no keyword, i.e. `None` or the empty string) or `word_count = 0`,
density and recommended count are 0; otherwise
`density = round(keyword_count / word_count × 100, 2)` and the recommended
count follows the three word-count brackets.  Compared against
`calculate_keyword_stats` for the refinement claim. -/
def keywordStatsSpec (keyword : Option String) (word_count keyword_count : Nat) :
    ℚ × Nat :=
  if keyword = none ∨ keyword = some "" ∨ word_count = 0 then (0, 0)
  else
    (pyRound2 ((keyword_count : ℚ) / (word_count : ℚ) * 100),
     if word_count ≤ 300 then 1
     else if word_count ≤ 800 then max 2 (pyRound ((word_count : ℚ) / 250)).toNat
     else max 3 (pyRound ((word_count : ℚ) / 300)).toNat)

/-- A fixed clock for concrete evaluations: day number 20000 for both
`date.today()` and `datetime.now()`. -/
def clk0 : Clock := ⟨20000, 20000⟩

/-- A state earning every component's full weight: title length 55, meta 155,
one H1, two H2s and one H3, unique headers, 2 images with alt text, density
2.0 with coverage 1/4, no long paragraphs, 500 words, canonical + schema +
HTTPS + mobile, internal and external links, perfect Core Web Vitals, full
E-E-A-T, all three technical factors, content 10 days fresh. -/
def fullCredit : SA :=
  { title := some "T", title_length := 55,
    meta_description := some "M", meta_description_length := 155,
    h1_count := 1, h2_count := 2, h3_count := 1,
    word_count := 500,
    keyword := some "k", keyword_count := 10, keyword_density := 2,
    paragraphs := [⟨"k here", 100⟩, ⟨"b", 100⟩, ⟨"c", 100⟩, ⟨"d", 100⟩],
    images_count := 2, missing_alt_images_count := 0,
    has_canonical := true, has_schema_markup := true,
    internal_links_count := 1, external_links_count := 1,
    largest_contentful_paint := some 2000, first_input_delay := some 50,
    cumulative_layout_shift := some 0.05,
    mobile_friendly := true, https := true,
    content_freshness := some 19990,
    robots_txt_status := true, sitemap_status := true, page_load_time := some 2,
    author_credentials := true, author_bylines := true, citation_sources := 5,
    last_updated := some 19990, contact_info_present := true }

/-- Counterexample state for the keyword boundary claim: a keyword is set but
the word count is zero. -/
def exC4 : SA :=
  { keyword := some "seo", word_count := 0, keyword_count := 0,
    title := some "A good descriptive title here padding more padd",
    https := true }

/-- Counterexample state for the schema claim: schema markup detected, empty
`schema_types`, non-empty `schema_errors`, no breadcrumb schema. -/
def exC7 : SA :=
  { has_schema_markup := true, schema_errors := ["missing itemtype"],
    word_count := 600 }

/-- Counterexample state for the idempotence claim: 200 words with the
`thin_content` flag not yet set. -/
def exC8 : SA :=
  { word_count := 200, thin_content := false, title := some "Word",
    title_length := 4, https := true }

/-- Witness state for the error-fallback claim: `h2_texts` holds a
non-string JSON entry, so `.lower()` raises inside
`analyze_headers_structure`. -/
def exC9 : SA :=
  { h1_text := some "T", h2_texts := [.int 3] }

/-- Witness state for the stale-thin-content claim: `thin_content` true on
entry while the word count is large. -/
def exC10 : SA :=
  { word_count := 800, thin_content := true, title := some "Word",
    title_length := 4, https := true }

/-- The `PageSignals` projection of a state: the input fields of the spec's
data model.  Derived outputs (`keyword_density`, `recommended_keyword_count`,
`thin_content`, `seo_health_percentage`, `recommendations`) are blanked, so
two states with equal projections carry identical page signals. -/
def signalsOf (s : SA) : SA :=
  { s with
    keyword_density := 0,
    recommended_keyword_count := 0,
    thin_content := false,
    seo_health_percentage := 0,
    recommendations := [] }

/-- C1: the claim says the weight table distributes a budget of exactly 100
and that component contributions never sum past 100.  In fact the
`SEO_WEIGHTS` values sum to 110 — contradicting the source's own comment
"Improved weight distribution (total = 100)" — and the full-credit input
`fullCredit` accumulates a raw score of exactly 110; only the final
`min(100, max(0, int(score)))` clamp keeps the stored health score at 100,
inside [0,100]. -/
theorem c1_weight_budget :
    (SEO_WEIGHTS.map Prod.snd).sum = 110 ∧
    seo_health_score fullCredit clk0 = .ok 110 ∧
    (calculate_seo_health fullCredit clk0).map SA.seo_health_percentage = .ok 100 := by
  refine ⟨by decide, by decide, by decide⟩

/-- C3: the grade mapping partitions [0,100]: 90–100 → A+, 80–89 → A,
70–79 → B, 60–69 → C, 50–59 → D, 0–49 → F; in particular 89 → A, 90 → A+,
49 → F, 50 → D. -/
theorem c3_grade_partition :
    (∀ n, n < 101 →
      ((90 ≤ n ↔ gradeAt n = "A+") ∧
       (80 ≤ n ∧ n < 90 ↔ gradeAt n = "A") ∧
       (70 ≤ n ∧ n < 80 ↔ gradeAt n = "B") ∧
       (60 ≤ n ∧ n < 70 ↔ gradeAt n = "C") ∧
       (50 ≤ n ∧ n < 60 ↔ gradeAt n = "D") ∧
       (n < 50 ↔ gradeAt n = "F"))) ∧
    gradeAt 89 = "A" ∧ gradeAt 90 = "A+" ∧ gradeAt 49 = "F" ∧ gradeAt 50 = "D" := by
  exact ⟨by decide, rfl, rfl, rfl, rfl⟩

/-- Witness for C3 at score 95. -/
theorem c3_grade_partition_witness :
    (95 < 101) ∧ (90 ≤ 95 ↔ gradeAt 95 = "A+") :=
  ⟨by decide, (c3_grade_partition.1 95 (by decide)).1⟩

/-- C5: `calculate_keyword_stats` computes exactly the density and
recommended count the spec describes ("keyword is absent" meaning the
Python-falsy cases `None` and the empty string). -/
theorem truthyStr_eq_false {o : Option String} :
    truthyStr o = false ↔ (o = none ∨ o = some "") := by
  cases o with
  | none => simp [truthyStr]
  | some s => simp [truthyStr, String.isEmpty_iff]

theorem c5_keyword_stats (s : SA) :
    ((calculate_keyword_stats s).keyword_density,
     (calculate_keyword_stats s).recommended_keyword_count) =
    keywordStatsSpec s.keyword s.word_count s.keyword_count := by
  have hiff : (truthyStr s.keyword = false ∨ s.word_count = 0) ↔
      (s.keyword = none ∨ s.keyword = some "" ∨ s.word_count = 0) := by
    rw [truthyStr_eq_false]; tauto
  unfold calculate_keyword_stats keywordStatsSpec
  by_cases h : truthyStr s.keyword = false ∨ s.word_count = 0
  · rw [if_pos (hiff.1 h)]
    simp [if_pos h]
  · rw [if_neg (fun hc => h (hiff.2 hc))]
    simp [if_neg h]

/-- C7 counterexample: with schema markup present, `schema_types` empty and
`schema_errors` non-empty, the source returns early with only the medium
"type could not be determined" issue: no high-priority issue carrying the
error count is emitted, contrary to the claim's "whenever schema is present
and schema_errors is non-empty". -/
theorem c7_counterexample :
    exC7.has_schema_markup = true ∧ exC7.schema_errors ≠ [] ∧
    check_schema_markup exC7 = [⟨.schema, .medium, .schemaTypeUnknown⟩] ∧
    (check_schema_markup exC7).all (fun r => decide (r.priority ≠ Priority.high)) = true := by
  exact ⟨rfl, by decide, rfl, rfl⟩

/-- C7 amended: the no-schema high issue and (schema but no type) medium
issue are as claimed; the high error-count issue and the low suggestion
issue are emitted only when schema markup is present AND `schema_types` is
non-empty; the suggestion lists Article (when word_count > 500 and Article
absent) and BreadcrumbList (when breadcrumb schema absent) and is emitted
only when that list is non-empty. -/
theorem c7_schema_issues (s : SA) :
    ((⟨.schema, .high, .noSchemaMarkup⟩ : Recommend) ∈ check_schema_markup s ↔
      s.has_schema_markup = false) ∧
    ((⟨.schema, .medium, .schemaTypeUnknown⟩ : Recommend) ∈ check_schema_markup s ↔
      s.has_schema_markup = true ∧ s.schema_types = []) ∧
    (∀ n, (⟨.schema, .high, .schemaHasErrors n⟩ : Recommend) ∈ check_schema_markup s ↔
      s.has_schema_markup = true ∧ s.schema_types ≠ [] ∧ s.schema_errors ≠ [] ∧
      n = s.schema_errors.length) ∧
    (∀ ts, (⟨.schema, .low, .schemaSuggest ts⟩ : Recommend) ∈ check_schema_markup s ↔
      s.has_schema_markup = true ∧ s.schema_types ≠ [] ∧ ts = suggestedTypes s ∧
      suggestedTypes s ≠ []) := by
  unfold check_schema_markup
  split_ifs with h1 h2 h3 h4 h5
  · simp [h1]
  · simp only [Bool.not_eq_false] at h1
    simp [h1, h2]
  · simp only [Bool.not_eq_false] at h1
    simp [h1, h2, h3, h4, List.mem_append]
  · simp only [Bool.not_eq_false] at h1
    simp only [not_not] at h4
    simp [h1, h2, h3, h4, List.mem_append]
  · simp only [Bool.not_eq_false] at h1
    simp only [not_not] at h3
    simp [h1, h2, h3, h5, List.mem_append]
  · simp only [Bool.not_eq_false] at h1
    simp only [not_not] at h3 h5
    simp [h1, h2, h3, h5, List.mem_append]

theorem mem_sortRecs {r : Recommend} {l : List Recommend} :
    r ∈ sortRecs l ↔ r ∈ l := by
  unfold sortRecs
  simp only [List.mem_append, List.mem_filter]
  constructor
  · rintro (((⟨h, -⟩ | ⟨h, -⟩) | ⟨h, -⟩) | ⟨h, -⟩) <;> exact h
  · intro h
    cases hp : r.priority <;> simp [priorityOrder, hp, h]

theorem filterRank_filterPrio (l : List Recommend) (k : Nat) (p : Priority) :
    (l.filter (fun r => priorityOrder r.priority == k)).filter
        (fun r => decide (r.priority = p)) =
      if priorityOrder p = k then l.filter (fun r => decide (r.priority = p))
      else [] := by
  induction l with
  | nil => simp
  | cons a t ih =>
    by_cases hk2 : priorityOrder a.priority = k
    · by_cases hp : a.priority = p
      · rw [← hp] at ih ⊢
        simp [List.filter_cons, hk2, ih]
      · simp [List.filter_cons, hp, hk2, ih]
    · by_cases hp : a.priority = p
      · rw [← hp] at ih ⊢
        simp [List.filter_cons, hk2, ih]
      · simp [List.filter_cons, hp, hk2, ih]

theorem sortRecs_filter_priority (l : List Recommend) (p : Priority) :
    (sortRecs l).filter (fun r => decide (r.priority = p)) =
      l.filter (fun r => decide (r.priority = p)) := by
  unfold sortRecs
  simp only [List.filter_append, filterRank_filterPrio]
  cases p <;> simp [priorityOrder]

theorem sortRecs_pairwise (l : List Recommend) :
    (sortRecs l).Pairwise
      (fun x y => priorityOrder x.priority ≤ priorityOrder y.priority) := by
  have hm : ∀ (k : Nat) (r : Recommend),
      r ∈ l.filter (fun x => priorityOrder x.priority == k) →
        priorityOrder r.priority = k := by
    intro k r hr
    simpa using (List.mem_filter.1 hr).2
  have bucket : ∀ k : Nat,
      (l.filter (fun x => priorityOrder x.priority == k)).Pairwise
        (fun x y => priorityOrder x.priority ≤ priorityOrder y.priority) := by
    intro k
    exact List.pairwise_of_forall_mem_list
      (fun a ha b hb => by rw [hm k a ha, hm k b hb])
  unfold sortRecs
  refine List.pairwise_append.2
    ⟨List.pairwise_append.2
      ⟨List.pairwise_append.2 ⟨bucket 0, bucket 1, ?_⟩, bucket 2, ?_⟩,
     bucket 3, ?_⟩
  · intro a ha b hb
    rw [hm 0 a ha, hm 1 b hb]
    omega
  · intro a ha b hb
    rcases List.mem_append.1 ha with h | h
    · rw [hm 0 a h, hm 2 b hb]; omega
    · rw [hm 1 a h, hm 2 b hb]; omega
  · intro a ha b hb
    rcases List.mem_append.1 ha with h | h
    · rcases List.mem_append.1 h with h2 | h2
      · rw [hm 0 a h2, hm 3 b hb]; omega
      · rw [hm 1 a h2, hm 3 b hb]; omega
    · rw [hm 2 a h, hm 3 b hb]; omega

theorem generate_recommendations_eq {s : SA} {recs : List Recommend}
    (h : generate_recommendations s = .ok recs) :
    ∃ hdrs, analyze_headers_structure s = .ok hdrs ∧
      recs = sortRecs (recsBase s hdrs) := by
  unfold generate_recommendations at h
  cases ha : analyze_headers_structure s with
  | ok hdrs =>
    rw [ha] at h
    refine ⟨hdrs, rfl, ?_⟩
    simpa [Except.map] using h.symm
  | error e =>
    rw [ha] at h
    simp [Except.map] at h

theorem except_bind_ok {ε α β : Type} (a : α) (f : α → Except ε β) :
    (Except.ok a >>= f : Except ε β) = f a := rfl

theorem except_bind_error {ε α β : Type} (e : ε) (f : α → Except ε β) :
    (Except.error e >>= f : Except ε β) = .error e := rfl

theorem filter_sortRecs (p : Recommend → Bool) (l : List Recommend) :
    (sortRecs l).filter p = sortRecs (l.filter p) := by
  unfold sortRecs
  simp only [List.filter_append, List.filter_comm]

theorem analyze_headers_ok_eq {s : SA} {hdrs : List Recommend}
    (ha : analyze_headers_structure s = .ok hdrs) :
    ∃ ident dup, identIssuesE s = .ok ident ∧ dupIssueE s = .ok dup ∧
      hdrs = h1Issues s ++ h2Issue s ++ ident ++ dup := by
  unfold analyze_headers_structure at ha
  cases hi : identIssuesE s with
  | error e =>
    rw [hi, except_bind_error] at ha
    cases ha
  | ok ident =>
    rw [hi, except_bind_ok] at ha
    cases hd : dupIssueE s with
    | error e =>
      rw [hd, except_bind_error] at ha
      cases ha
    | ok dup =>
      rw [hd, except_bind_ok] at ha
      exact ⟨ident, dup, rfl, rfl, (Except.ok.inj ha).symm⟩

theorem identIssuesE_rtype {s : SA} {l : List Recommend}
    (h : identIssuesE s = .ok l) : ∀ r ∈ l, r.rtype = RType.headers := by
  unfold identIssuesE at h
  by_cases hc : truthyStr s.h1_text = false ∨ s.h2_texts = []
  · rw [if_pos hc] at h
    cases h
    simp
  · rw [if_neg hc] at h
    cases hm : s.h2_texts.mapM pyLower with
    | error e =>
      rw [hm] at h
      cases h
    | ok ls =>
      rw [hm] at h
      cases h
      intro r hr
      obtain ⟨q, -, hq⟩ := List.mem_filterMap.1 hr
      split at hq
      · cases Option.some.inj hq
        rfl
      · cases hq

theorem dupIssueE_rtype {s : SA} {l : List Recommend}
    (h : dupIssueE s = .ok l) : ∀ r ∈ l, r.rtype = RType.headers := by
  unfold dupIssueE at h
  by_cases hc : s.h2_texts = []
  · rw [if_pos hc] at h
    cases h
    simp
  · rw [if_neg hc] at h
    cases hm : s.h2_texts.mapM pyLower with
    | error e =>
      rw [hm] at h
      cases h
    | ok ls =>
      rw [hm] at h
      cases h
      intro r hr
      simp only [] at hr
      split at hr <;> simp_all

theorem h1Issues_rtype {s : SA} : ∀ r ∈ h1Issues s, r.rtype = RType.headers := by
  unfold h1Issues
  split_ifs <;> simp

theorem h2Issue_rtype {s : SA} : ∀ r ∈ h2Issue s, r.rtype = RType.headers := by
  unfold h2Issue
  split_ifs <;> simp

theorem headers_rtype {s : SA} {hdrs : List Recommend}
    (ha : analyze_headers_structure s = .ok hdrs) :
    ∀ r ∈ hdrs, r.rtype = RType.headers := by
  obtain ⟨ident, dup, hi, hd, rfl⟩ := analyze_headers_ok_eq ha
  intro r hr
  rcases List.mem_append.1 hr with h | h
  · rcases List.mem_append.1 h with h2 | h2
    · rcases List.mem_append.1 h2 with h3 | h3
      · exact h1Issues_rtype r h3
      · exact h2Issue_rtype r h3
    · exact identIssuesE_rtype hi r h2
  · exact dupIssueE_rtype hd r h

theorem titleRecs_rtype {s : SA} : ∀ r ∈ titleRecs s, r.rtype = RType.title := by
  unfold titleRecs
  split_ifs <;> simp

theorem metaRecs_rtype {s : SA} :
    ∀ r ∈ metaRecs s, r.rtype = RType.meta_description := by
  unfold metaRecs
  split_ifs <;> simp

theorem httpsRecs_rtype {s : SA} : ∀ r ∈ httpsRecs s, r.rtype = RType.security := by
  unfold httpsRecs
  split_ifs <;> simp

theorem veryLongIssues_rtype {s : SA} :
    ∀ r ∈ veryLongIssues s, r.rtype = RType.paragraph_length := by
  intro r hr
  obtain ⟨q, -, hq⟩ := List.mem_filterMap.1 hr
  split at hq
  · cases Option.some.inj hq
    rfl
  · cases hq

theorem longParagraphIssue_rtype {s : SA} :
    ∀ r ∈ longParagraphIssue s, r.rtype = RType.paragraph_length := by
  unfold longParagraphIssue
  split_ifs <;> simp

theorem keywordCoverageIssue_rtype {s : SA} :
    ∀ r ∈ keywordCoverageIssue s, r.rtype = RType.keyword_distribution := by
  unfold keywordCoverageIssue
  split_ifs <;> simp

theorem analyze_paragraphs_rtype {s : SA} :
    ∀ r ∈ analyze_paragraphs s,
      r.rtype = RType.paragraph_length ∨ r.rtype = RType.keyword_distribution := by
  unfold analyze_paragraphs
  split_ifs with h
  · simp
  · intro r hr
    rcases List.mem_append.1 hr with h2 | h2
    · rcases List.mem_append.1 h2 with h3 | h3
      · exact Or.inl (veryLongIssues_rtype r h3)
      · exact Or.inl (longParagraphIssue_rtype r h3)
    · exact Or.inr (keywordCoverageIssue_rtype r h2)

theorem check_schema_markup_rtype {s : SA} :
    ∀ r ∈ check_schema_markup s, r.rtype = RType.schema := by
  unfold check_schema_markup
  split_ifs <;> intro r hr
  · simp_all
  · simp_all
  all_goals rcases List.mem_append.1 hr with h | h <;> simp_all

theorem contentQualityRecs_rtype {s : SA} :
    ∀ r ∈ contentQualityRecs s, r.rtype = RType.content_quality := by
  unfold contentQualityRecs
  intro r hr
  obtain ⟨m, -, rfl⟩ := List.mem_map.1 hr
  rfl

theorem keywordRecs_rtype {s : SA} :
    ∀ r ∈ keywordRecs s, r.rtype = RType.keyword := by
  unfold keywordRecs
  split_ifs <;> intro r hr <;>
    (try rcases List.mem_append.1 hr with h | h) <;> simp_all

theorem techRecs_rtype {s : SA} :
    ∀ r ∈ techRecs s, r.rtype = RType.technical := by
  unfold techRecs
  split_ifs <;> intro r hr <;>
    (try rcases List.mem_append.1 hr with h | h) <;> simp_all

theorem perfRecs_rtype {s : SA} :
    ∀ r ∈ perfRecs s, r.rtype = RType.performance := by
  unfold perfRecs
  split_ifs <;> intro r hr <;>
    (try rcases List.mem_append.1 hr with h | h) <;> simp_all

theorem filter_rtype_nil {L : List Recommend} {ty : RType}
    (h : ∀ r ∈ L, r.rtype ≠ ty) :
    L.filter (fun r => decide (r.rtype = ty)) = [] :=
  List.filter_eq_nil_iff.2 (fun a ha => by simpa using h a ha)

theorem calculate_keyword_stats_keyword (s : SA) :
    (calculate_keyword_stats s).keyword = s.keyword := rfl

theorem calculate_keyword_stats_count (s : SA) :
    (calculate_keyword_stats s).keyword_count = s.keyword_count := rfl

theorem calculate_keyword_stats_word_count (s : SA) :
    (calculate_keyword_stats s).word_count = s.word_count := rfl

theorem calculate_keyword_stats_thin (s : SA) :
    (calculate_keyword_stats s).thin_content = s.thin_content := rfl

theorem calculate_keyword_stats_zero_wc {s : SA} (hw : s.word_count = 0) :
    (calculate_keyword_stats s).keyword_density = 0 ∧
    (calculate_keyword_stats s).recommended_keyword_count = 0 := by
  unfold calculate_keyword_stats
  constructor <;> simp [hw]

/-- C6: the final recommendation list is the stable sort of the detected
recommendations by the fixed priority order critical 0, high 1, medium 2,
low 3: every generated list is priority-sorted, recommendations of equal
priority keep their detection order (the filter at each priority is
unchanged), and the detection order [medium, critical, low, high] comes out
as [critical, high, medium, low]. -/
theorem c6_sort_order :
    (∀ s recs, generate_recommendations s = .ok recs →
      recs.Pairwise (fun x y => priorityOrder x.priority ≤ priorityOrder y.priority)) ∧
    (∀ (l : List Recommend),
      (sortRecs l).Pairwise
        (fun x y => priorityOrder x.priority ≤ priorityOrder y.priority)) ∧
    (∀ (l : List Recommend) (p : Priority),
      (sortRecs l).filter (fun r => decide (r.priority = p)) =
        l.filter (fun r => decide (r.priority = p))) ∧
    (∀ a b c d : Recommend,
      a.priority = .medium → b.priority = .critical → c.priority = .low →
      d.priority = .high → sortRecs [a, b, c, d] = [b, d, a, c]) := by
  refine ⟨?_, sortRecs_pairwise, sortRecs_filter_priority, ?_⟩
  · intro s recs h
    obtain ⟨hdrs, -, rfl⟩ := generate_recommendations_eq h
    exact sortRecs_pairwise _
  · intro a b c d hm hc hl hh
    simp [sortRecs, List.filter_cons, hm, hc, hl, hh, priorityOrder]

/-- Witness for C6 on a concrete four-element list. -/
theorem c6_sort_order_witness :
    sortRecs
      [⟨.headers, .medium, .noH2⟩, ⟨.title, .critical, .missingTitle⟩,
       ⟨.schema, .low, .noSchemaMarkup⟩, ⟨.technical, .high, .notMobileFriendly⟩] =
      [⟨.title, .critical, .missingTitle⟩, ⟨.technical, .high, .notMobileFriendly⟩,
       ⟨.headers, .medium, .noH2⟩, ⟨.schema, .low, .noSchemaMarkup⟩] :=
  c6_sort_order.2.2.2 _ _ _ _ rfl rfl rfl rfl

/-- C9: when the analysis pipeline raises internally, `save` catches the
exception and stores the fallback result: health score forced to 0 and the
recommendation list replaced by exactly the one critical
"analysis calculation error" recommendation. -/
theorem c9_error_fallback (s : SA) (c : Clock)
    (h : analysisPipeline (calculate_keyword_stats (updateLengths s)) c = .error ()) :
    (save s c).seo_health_percentage = 0 ∧
    (save s c).recommendations = [errorRec] ∧
    errorRec.priority = .critical := by
  unfold save
  rw [h]
  exact ⟨rfl, rfl, rfl⟩

/-- Witness for C9: a non-string entry in the `h2_texts` JSON list makes
`analyze_headers_structure` raise, and `save` produces the fallback. -/
theorem c9_error_fallback_witness :
    (analysisPipeline (calculate_keyword_stats (updateLengths exC9)) clk0 = .error ()) ∧
    (save exC9 clk0).seo_health_percentage = 0 ∧
    (save exC9 clk0).recommendations = [errorRec] ∧
    errorRec.priority = .critical :=
  ⟨rfl, c9_error_fallback exC9 clk0 rfl⟩

/-- C4 counterexample: with `word_count = 0`, a set keyword and
`keyword_count = 0`, the recomputed density 0 is below the 0.5 threshold, so
the medium "keyword density very low" recommendation is emitted in addition
to the critical "keyword not found" one — the latter is not the only
keyword-category recommendation. -/
theorem c4_counterexample :
    exC4.word_count = 0 ∧ truthyStr exC4.keyword = true ∧
    (calculate_keyword_stats exC4).keyword_density = 0 ∧
    (generate_recommendations (calculate_keyword_stats (updateLengths exC4))).map
        (fun recs => recs.filter (fun r => decide (r.rtype = RType.keyword))) =
      .ok [⟨.keyword, .critical, .keywordNotFound "seo"⟩,
           ⟨.keyword, .medium, .densityVeryLow 0⟩] := by
  exact ⟨rfl, rfl, by decide, by decide⟩

/-- C4 amended: with `word_count = 0` and a truthy keyword, the recomputed
density is 0 (no division occurs: the guard short-circuits), and the
keyword-category recommendations are exactly the critical "keyword not
found" one (present precisely when `keyword_count = 0`) followed by the
medium "keyword density very low" one, which is always emitted because
density 0 < 0.5; no count-based or density-too-high keyword recommendation
is triggered. -/
theorem c4_keyword_zero_wordcount (s : SA) (hw : s.word_count = 0)
    (hk : truthyStr s.keyword = true) {recs : List Recommend}
    (hg : generate_recommendations (calculate_keyword_stats s) = .ok recs) :
    (calculate_keyword_stats s).keyword_density = 0 ∧
    recs.filter (fun r => decide (r.rtype = RType.keyword)) =
      (if s.keyword_count = 0 then
        [⟨.keyword, .critical, .keywordNotFound (s.keyword.getD "")⟩]
      else []) ++ [⟨.keyword, .medium, .densityVeryLow 0⟩] := by
  have hd := (calculate_keyword_stats_zero_wc hw).1
  have hrc := (calculate_keyword_stats_zero_wc hw).2
  have hkw := calculate_keyword_stats_keyword s
  have hcnt := calculate_keyword_stats_count s
  refine ⟨hd, ?_⟩
  obtain ⟨hdrs, ha, rfl⟩ := generate_recommendations_eq hg
  rw [filter_sortRecs]
  unfold recsBase
  simp only [List.filter_append]
  have hT : (titleRecs (calculate_keyword_stats s)).filter
      (fun r => decide (r.rtype = RType.keyword)) = [] :=
    filter_rtype_nil (fun r hr => by rw [titleRecs_rtype r hr]; decide)
  have hM : (metaRecs (calculate_keyword_stats s)).filter
      (fun r => decide (r.rtype = RType.keyword)) = [] :=
    filter_rtype_nil (fun r hr => by rw [metaRecs_rtype r hr]; decide)
  have hH : (httpsRecs (calculate_keyword_stats s)).filter
      (fun r => decide (r.rtype = RType.keyword)) = [] :=
    filter_rtype_nil (fun r hr => by rw [httpsRecs_rtype r hr]; decide)
  have hHd : hdrs.filter (fun r => decide (r.rtype = RType.keyword)) = [] :=
    filter_rtype_nil (fun r hr => by rw [headers_rtype ha r hr]; decide)
  have hP : (analyze_paragraphs (calculate_keyword_stats s)).filter
      (fun r => decide (r.rtype = RType.keyword)) = [] :=
    filter_rtype_nil (fun r hr => by
      rcases analyze_paragraphs_rtype r hr with h | h <;> rw [h] <;> decide)
  have hS : (check_schema_markup (calculate_keyword_stats s)).filter
      (fun r => decide (r.rtype = RType.keyword)) = [] :=
    filter_rtype_nil (fun r hr => by rw [check_schema_markup_rtype r hr]; decide)
  have hC : (contentQualityRecs (calculate_keyword_stats s)).filter
      (fun r => decide (r.rtype = RType.keyword)) = [] :=
    filter_rtype_nil (fun r hr => by rw [contentQualityRecs_rtype r hr]; decide)
  have hTe : (techRecs (calculate_keyword_stats s)).filter
      (fun r => decide (r.rtype = RType.keyword)) = [] :=
    filter_rtype_nil (fun r hr => by rw [techRecs_rtype r hr]; decide)
  have hPf : (perfRecs (calculate_keyword_stats s)).filter
      (fun r => decide (r.rtype = RType.keyword)) = [] :=
    filter_rtype_nil (fun r hr => by rw [perfRecs_rtype r hr]; decide)
  have hK : (keywordRecs (calculate_keyword_stats s)).filter
      (fun r => decide (r.rtype = RType.keyword)) =
      keywordRecs (calculate_keyword_stats s) :=
    List.filter_eq_self.2 (fun r hr => by rw [keywordRecs_rtype r hr]; decide)
  rw [hT, hM, hH, hHd, hP, hS, hC, hTe, hPf, hK]
  simp only [List.nil_append, List.append_nil]
  unfold keywordRecs
  rw [hkw, hcnt, hrc, hd]
  by_cases hc : s.keyword_count = 0
  · simp only [hk, hc, if_true, if_pos rfl]
    rw [if_pos (show (0 : ℚ) < 0.5 by norm_num)]
    simp [sortRecs, priorityOrder]
  · rw [if_pos (show truthyStr s.keyword = true from hk), if_neg hc,
      if_neg (Nat.not_lt_zero s.keyword_count),
      if_pos (show (0 : ℚ) < 0.5 by norm_num), if_neg hc]
    simp [sortRecs, priorityOrder]

/-- Witness for the amended C4 at the concrete boundary state. -/
theorem c4_keyword_zero_wordcount_witness :
    exC4.word_count = 0 ∧ truthyStr exC4.keyword = true ∧
    (calculate_keyword_stats exC4).keyword_density = 0 :=
  ⟨rfl, rfl, (c4_keyword_zero_wordcount exC4 rfl rfl rfl).1⟩

theorem crit_title_mem {s : SA} (hdrs : List Recommend)
    (h : truthyStr s.title = false ∨ s.title_length = 0) :
    (⟨.title, .critical, .missingTitle⟩ : Recommend) ∈ recsBase s hdrs := by
  unfold recsBase titleRecs
  rw [if_pos h]
  simp [List.mem_append]

theorem crit_h1_mem {s : SA} {hdrs : List Recommend}
    (ha : analyze_headers_structure s = .ok hdrs) (h : s.h1_count = 0) :
    (⟨.headers, .critical, .missingH1⟩ : Recommend) ∈ recsBase s hdrs := by
  obtain ⟨ident, dup, -, -, rfl⟩ := analyze_headers_ok_eq ha
  unfold recsBase h1Issues
  rw [if_pos h]
  simp [List.mem_append]

theorem crit_kw_mem {s : SA} (hdrs : List Recommend)
    (hk : truthyStr s.keyword = true) (h0 : s.keyword_count = 0) :
    (⟨.keyword, .critical, .keywordNotFound (s.keyword.getD "")⟩ : Recommend) ∈
      recsBase s hdrs := by
  unfold recsBase keywordRecs
  simp [hk, h0, List.mem_append]

/-- C2: once the recommendation list has been generated for the same field
values, `has_critical_errors` is equivalent to "some recommendation is
critical or https is false": its three extra conditions (missing title,
missing H1, keyword never found) each also produce a critical
recommendation, so they are absorbed by the scan. -/
theorem c2_has_critical_errors (s : SA) {recs : List Recommend}
    (hg : generate_recommendations s = .ok recs) :
    has_critical_errors { s with recommendations := recs } =
      (recs.any (fun r => decide (r.priority = Priority.critical)) || !s.https) := by
  obtain ⟨hdrs, ha, rfl⟩ := generate_recommendations_eq hg
  rw [Bool.eq_iff_iff]
  unfold has_critical_errors
  simp only [Bool.or_eq_true, Bool.not_eq_true', Bool.and_eq_true, beq_iff_eq,
    List.any_eq_true, decide_eq_true_eq, or_assoc]
  constructor
  · rintro (h | h | h | h | h | h)
    · exact Or.inr h
    · exact Or.inl ⟨_, mem_sortRecs.2 (crit_title_mem hdrs (Or.inl h)), rfl⟩
    · exact Or.inl ⟨_, mem_sortRecs.2 (crit_title_mem hdrs (Or.inr h)), rfl⟩
    · exact Or.inl ⟨_, mem_sortRecs.2 (crit_h1_mem ha h), rfl⟩
    · exact Or.inl ⟨_, mem_sortRecs.2 (crit_kw_mem hdrs h.1 h.2), rfl⟩
    · exact Or.inl h
  · rintro (h | h)
    · exact Or.inr (Or.inr (Or.inr (Or.inr (Or.inr h))))
    · exact Or.inl h

/-- Witness for C2: on the default state (missing title, no HTTPS) the
generated list contains critical recommendations and `has_critical_errors`
agrees with the disjunction. -/
theorem c2_has_critical_errors_witness :
    has_critical_errors
        { (({} : SA)) with
          recommendations :=
            (sortRecs (recsBase {} [⟨.headers, .critical, .missingH1⟩])) } =
      ((sortRecs (recsBase {} [⟨.headers, .critical, .missingH1⟩])).any
          (fun r => decide (r.priority = Priority.critical)) ||
        !SA.https {}) :=
  c2_has_critical_errors {} rfl

theorem analysisPipeline_ok {s2 : SA} {c : Clock} {s5 : SA}
    (hp : analysisPipeline s2 c = .ok s5) :
    ∃ recs q, generate_recommendations s2 = .ok recs ∧
      seo_health_score { s2 with recommendations := recs } c = .ok q ∧
      s5 = { s2 with
              recommendations := recs,
              seo_health_percentage := (min 100 (max 0 (pyInt q))).toNat,
              thin_content := decide (s2.word_count < 300) } := by
  unfold analysisPipeline at hp
  cases hg : generate_recommendations s2 with
  | error e =>
    rw [hg, except_bind_error] at hp
    cases hp
  | ok recs =>
    rw [hg, except_bind_ok] at hp
    unfold calculate_seo_health at hp
    cases hq : seo_health_score { s2 with recommendations := recs } c with
    | error e =>
      rw [hq] at hp
      cases hp
    | ok q =>
      rw [hq] at hp
      exact ⟨recs, q, rfl, hq, (Except.ok.inj hp).symm⟩

theorem mem_recsBase_cq {s : SA} {hdrs : List Recommend} {r : Recommend}
    (ha : analyze_headers_structure s = .ok hdrs)
    (hr : r.rtype = RType.content_quality) :
    r ∈ recsBase s hdrs ↔ r ∈ contentQualityRecs s := by
  unfold recsBase
  simp only [List.mem_append, or_assoc]
  constructor
  · rintro (h | h | h | h | h | h | h | h | h | h)
    · exact absurd hr (by rw [titleRecs_rtype r h]; decide)
    · exact absurd hr (by rw [metaRecs_rtype r h]; decide)
    · exact absurd hr (by rw [httpsRecs_rtype r h]; decide)
    · exact absurd hr (by rw [headers_rtype ha r h]; decide)
    · exact absurd hr (by
        rcases analyze_paragraphs_rtype r h with h2 | h2 <;> rw [h2] <;> decide)
    · exact absurd hr (by rw [check_schema_markup_rtype r h]; decide)
    · exact h
    · exact absurd hr (by rw [keywordRecs_rtype r h]; decide)
    · exact absurd hr (by rw [techRecs_rtype r h]; decide)
    · exact absurd hr (by rw [perfRecs_rtype r h]; decide)
  · intro h
    exact Or.inr (Or.inr (Or.inr (Or.inr (Or.inr (Or.inr (Or.inl h))))))

theorem mem_contentQualityRecs {s : SA} {m : Msg} :
    (⟨.content_quality, .high, m⟩ : Recommend) ∈ contentQualityRecs s ↔
      m ∈ analyze_content_quality s := by
  unfold contentQualityRecs
  simp [List.mem_map]

theorem flaggedThin_mem_cq (s : SA) :
    Msg.flaggedThin ∈ analyze_content_quality s ↔ s.thin_content = true := by
  unfold analyze_content_quality
  rcases hx : s.content_readability_score with _ | q <;>
    (simp only [hx]
     split_ifs <;> simp_all [List.mem_append])

/-- C10: within one `save`, `thin_content` is assigned only after the
recommendations were generated, so the "Content flagged as thin"
content-quality recommendation appears in the saved list iff `thin_content`
was true on entry (the previous run's value), while the stored
`thin_content` after a successful save equals `word_count < 300`. -/
theorem c10_thin_content (s : SA) (c : Clock) {s5 : SA}
    (hp : analysisPipeline (calculate_keyword_stats (updateLengths s)) c = .ok s5) :
    ((⟨.content_quality, .high, .flaggedThin⟩ : Recommend) ∈
        (save s c).recommendations ↔ s.thin_content = true) ∧
    (save s c).thin_content = decide (s.word_count < 300) := by
  have hsv : save s c = s5 := by
    unfold save
    rw [hp]
  obtain ⟨recs, q, hg, hq, rfl⟩ := analysisPipeline_ok hp
  rw [hsv]
  obtain ⟨hdrs, ha, rfl⟩ := generate_recommendations_eq hg
  constructor
  · show (⟨.content_quality, .high, .flaggedThin⟩ : Recommend) ∈
        sortRecs (recsBase (calculate_keyword_stats (updateLengths s)) hdrs) ↔
      s.thin_content = true
    rw [mem_sortRecs, mem_recsBase_cq ha rfl, mem_contentQualityRecs,
      flaggedThin_mem_cq, calculate_keyword_stats_thin]
    exact Iff.rfl
  · show decide ((calculate_keyword_stats (updateLengths s)).word_count < 300) =
      decide (s.word_count < 300)
    rw [calculate_keyword_stats_word_count]
    rfl

/-- Witness for C10: entry state with `thin_content = true` and 800 words:
the saved list contains the "flagged as thin" recommendation even though the
word count is large, and the stored flag becomes false. -/
theorem c10_thin_content_witness :
    ((⟨.content_quality, .high, .flaggedThin⟩ : Recommend) ∈
        (save exC10 clk0).recommendations ↔ exC10.thin_content = true) ∧
    (save exC10 clk0).thin_content = decide (exC10.word_count < 300) :=
  c10_thin_content exC10 clk0 rfl

/-- C8 counterexample: two invocations of the engine on identical page
signals (the first `save` leaves every input field of `exC8` unchanged, as
witnessed by the equal `signalsOf` projections) produce different
recommendation lists: the second run sees the `thin_content` flag the first
run stored and emits the extra "Content flagged as thin" recommendation. -/
theorem c8_counterexample :
    signalsOf (save exC8 clk0) = signalsOf exC8 ∧
    exC8.thin_content = false ∧ exC8.word_count = 200 ∧
    (save (save exC8 clk0) clk0).recommendations ≠ (save exC8 clk0).recommendations := by
  refine ⟨by decide, rfl, rfl, by decide⟩

/-- `save` does not read the stored recommendations or health score: states
differing only in those output fields are saved identically. -/
theorem save_ignores_outputs (s : SA) (c : Clock) (r : List Recommend) (p : Nat) :
    save { s with recommendations := r, seo_health_percentage := p } c = save s c := rfl

/-- `save` on a state whose `thin_content` equals the entry value of `s`. -/
theorem save_thin_entry (s : SA) (c : Clock) (r : List Recommend) (p : Nat) (b : Bool)
    (hb : b = s.thin_content) :
    save { s with
            recommendations := r,
            seo_health_percentage := p,
            thin_content := b } c =
      save { s with recommendations := r, seo_health_percentage := p } c := by
  rw [hb]

/-- C8 amended: the engine is deterministic only up to the mutable
`thin_content` field: when the entry `thin_content` already equals
`word_count < 300` — in particular from the second invocation on — repeated
invocations on identical page signals yield the identical full state
(`save` is idempotent).  The first invocation can differ (see the
counterexample): its recommendations reflect the *previous* run's
`thin_content`. -/
theorem c8_save_idempotent (s : SA) (c : Clock)
    (h : s.thin_content = decide (s.word_count < 300)) :
    save (save s c) c = save s c := by
  cases hp : analysisPipeline (calculate_keyword_stats (updateLengths s)) c with
  | error e =>
    have hsv : save s c = { calculate_keyword_stats (updateLengths s) with
        seo_health_percentage := 0, recommendations := [errorRec] } := by
      unfold save
      rw [hp]
    rw [hsv]
    have hj : save { calculate_keyword_stats (updateLengths s) with
        seo_health_percentage := 0, recommendations := [errorRec] } c =
        save (calculate_keyword_stats (updateLengths s)) c := rfl
    rw [hj]
    have hp2 : analysisPipeline (calculate_keyword_stats (updateLengths
        (calculate_keyword_stats (updateLengths s)))) c = .error e := hp
    unfold save
    rw [hp2]
    rfl
  | ok s5 =>
    have hsv : save s c = s5 := by
      unfold save
      rw [hp]
    rw [hsv]
    obtain ⟨recs, q, hg, hq, rfl⟩ := analysisPipeline_ok hp
    have hb : decide ((calculate_keyword_stats (updateLengths s)).word_count < 300) =
        (calculate_keyword_stats (updateLengths s)).thin_content := h.symm
    rw [save_thin_entry _ c _ _ _ hb, save_ignores_outputs]
    have hp2 : analysisPipeline (calculate_keyword_stats (updateLengths
        (calculate_keyword_stats (updateLengths s)))) c =
        .ok { calculate_keyword_stats (updateLengths s) with
              recommendations := recs,
              seo_health_percentage := (min 100 (max 0 (pyInt q))).toNat,
              thin_content := decide
                ((calculate_keyword_stats (updateLengths s)).word_count < 300) } := hp
    unfold save
    rw [hp2]

/-- Witness for the amended C8 at a concrete state whose `thin_content`
already matches its word count. -/
theorem c8_save_idempotent_witness :
    save (save ({ word_count := 200, thin_content := true } : SA) clk0) clk0 =
      save ({ word_count := 200, thin_content := true } : SA) clk0 :=
  c8_save_idempotent { word_count := 200, thin_content := true } clk0 rfl

end SEOModel
